import Mathlib

/-!
Verification of the connectivity-reconciliation core of My-Portable-Apps.

The Python sources are shallowly embedded: each service method becomes a
Lean function over an explicit oracle of OS-query answers, and the side
effects it issues (OS commands, file writes, message boxes, timer starts,
published monitor updates) are collected in an explicit event trace.
-/

namespace MPA

/-- Python's `sub in s` substring test, on Lean strings. -/
def pyIn (sub s : String) : Bool := decide (sub.data <:+: s.data)

/-- Python's `s.lower()`, character by character. -/
def pyLower (s : String) : String := ⟨s.data.map Char.toLower⟩

/-! ### PsiphonMonitor (src/core/services/psiphon_monitor.py)

A process snapshot records, for each OS process, its name, the status
strings of its network connections, and whether inspecting its
connections raises `AccessDenied`/`NoSuchProcess`. -/

structure Process where
  name : String
  conns : List String
  denied : Bool
deriving DecidableEq, Repr

/-- Name test used for the Psiphon UI process: `'psiphon3.exe' in name.lower()`. -/
def uiMatch (p : Process) : Bool := pyIn "psiphon3.exe" (pyLower p.name)

/-- Name test used for the tunnel-core process:
`'psiphon-tunnel-core.exe' in name.lower()`. -/
def tunMatch (p : Process) : Bool := pyIn "psiphon-tunnel-core.exe" (pyLower p.name)

/-- `PsiphonMonitor._check_psiphon_processes`: one pass over the process
list; a process whose name contains `psiphon3.exe` sets the UI flag, and
only otherwise (`elif`) a name containing `psiphon-tunnel-core.exe` sets
the tunnel flag. -/
def check_psiphon_processes : List Process → Bool × Bool
  | [] => (false, false)
  | p :: ps =>
    let r := check_psiphon_processes ps
    if uiMatch p then (true, r.2)
    else if tunMatch p then (r.1, true)
    else r

/-- `PsiphonMonitor._check_tunnel_status`: true iff some process whose
name contains `psiphon-tunnel-core.exe` can be inspected (no
`AccessDenied`/`NoSuchProcess`) and has a connection in the ESTABLISHED
state. -/
def check_tunnel_status (ps : List Process) : Bool :=
  ps.any fun p => tunMatch p && !p.denied && p.conns.any (· == "ESTABLISHED")

/-- The quadruple published by one iteration of `PsiphonMonitor.run`:
`(ui_running, tunnel_running, tunnel_active, psiphon_connected)` with
`psiphon_connected = ui_running and tunnel_running and tunnel_active`. -/
def sampleOf (ps : List Process) : Bool × Bool × Bool × Bool :=
  let c := check_psiphon_processes ps
  let act := check_tunnel_status ps
  (c.1, c.2, act, c.1 && c.2 && act)

/-- Observable events of the monitor loop: the edge log emitted when
`psiphon_connected` changes (`edge`), and the routine `status_updated`
signal (`update`). -/
inductive MEv where
  | edge (b : Bool)
  | update (q : Bool × Bool × Bool × Bool)
deriving DecidableEq, Repr

/-- Events emitted for one sample of `PsiphonMonitor.run`, given the
previous `last_connected_status` (`none` models Python's initial `None`):
the state-change log fires iff the composite status differs from the
previous one, and it precedes the `status_updated` emission. -/
def monitorStep (last : Option Bool) (ps : List Process) : List MEv × Option Bool :=
  let q := sampleOf ps
  ((if some q.2.2.2 ≠ last then [MEv.edge q.2.2.2] else []) ++ [MEv.update q],
   some q.2.2.2)

/-- The per-sample event batches of `PsiphonMonitor.run` over a sequence
of process snapshots, threading `last_connected_status`. -/
def monitorGo (last : Option Bool) : List (List Process) → List (List MEv)
  | [] => []
  | s :: rest =>
    (monitorStep last s).1 :: monitorGo (monitorStep last s).2 rest

/-- The monitor's whole run: `last_connected_status` starts as `None`. -/
def monitorBatches (ss : List (List Process)) : List (List MEv) :=
  monitorGo none ss

/-- The tunnel-running flag is set iff some process fails the UI name
test but passes the tunnel name test (the `elif` of the source). -/
theorem check_psiphon_processes_snd (ps : List Process) :
    (check_psiphon_processes ps).2 = ps.any fun p => !uiMatch p && tunMatch p := by
  induction ps with
  | nil => rfl
  | cons p ps ih =>
    simp only [check_psiphon_processes, List.any_cons]
    by_cases hu : uiMatch p <;> by_cases ht : tunMatch p <;>
      simp [hu, ht, ih]

/-- The UI-running flag is set iff some process passes the UI name test. -/
theorem check_psiphon_processes_fst (ps : List Process) :
    (check_psiphon_processes ps).1 = ps.any uiMatch := by
  induction ps with
  | nil => rfl
  | cons p ps ih =>
    simp only [check_psiphon_processes, List.any_cons]
    by_cases hu : uiMatch p <;> by_cases ht : tunMatch p <;>
      simp [hu, ht, ih]

/-- Helper: if the composite flag of a publish is true, so are all three
component flags. -/
theorem sampleOf_est_components (ps : List Process)
    (h : (sampleOf ps).2.2.2 = true) :
    (sampleOf ps).1 = true ∧ (sampleOf ps).2.1 = true ∧ (sampleOf ps).2.2.1 = true := by
  simp only [sampleOf, Bool.and_eq_true] at h ⊢
  exact ⟨h.1.1, h.1.2, h.2⟩

/-- Helper: the tunnel-active flag of a publish implies the
tunnel-running flag, provided no process name passes both the UI and the
tunnel name test. -/
theorem sampleOf_active_running (ps : List Process)
    (hnames : ∀ p ∈ ps, tunMatch p = true → uiMatch p = false)
    (h : (sampleOf ps).2.2.1 = true) :
    (sampleOf ps).2.1 = true := by
  simp only [sampleOf] at h ⊢
  rw [check_psiphon_processes_snd]
  simp only [check_tunnel_status, List.any_eq_true, Bool.and_eq_true] at h
  obtain ⟨p, hp, ⟨htun, _⟩, _⟩ := h
  refine List.any_eq_true.mpr ⟨p, hp, ?_⟩
  simp [htun, hnames p hp htun]

/-- C3 counterexample: the claim "tunnelActive ⇒ tunnelRunning at every
publish" is false on the code. A process whose name contains both
`psiphon3.exe` and `psiphon-tunnel-core.exe` is counted only as the UI
process by `_check_psiphon_processes` (its `elif`), yet
`_check_tunnel_status` still finds its ESTABLISHED connection, so the
monitor publishes tunnelActive = true with tunnelRunning = false. -/
theorem C3_counterexample :
    (sampleOf [⟨"psiphon3.exe psiphon-tunnel-core.exe", ["ESTABLISHED"], false⟩]).2.2.1
        = true ∧
    (sampleOf [⟨"psiphon3.exe psiphon-tunnel-core.exe", ["ESTABLISHED"], false⟩]).2.1
        = false := by
  exact ⟨by decide, by decide⟩

/-- C3 (amended): at every publish of the tunnel monitor the composite
`established` flag implies each of `uiRunning`, `tunnelRunning` and
`tunnelActive` (it is exactly their conjunction); `tunnelActive ⇒
tunnelRunning` additionally holds at every publish whose process
snapshot contains no process matching the UI name test and the tunnel
name test at once. -/
theorem C3_publish_invariant (ps : List Process) :
    ((sampleOf ps).2.2.2 = true → (sampleOf ps).2.2.1 = true) ∧
    ((sampleOf ps).2.2.2 = true → (sampleOf ps).2.1 = true) ∧
    ((sampleOf ps).2.2.2 = true → (sampleOf ps).1 = true) ∧
    ((∀ p ∈ ps, tunMatch p = true → uiMatch p = false) →
      (sampleOf ps).2.2.1 = true → (sampleOf ps).2.1 = true) := by
  refine ⟨fun h => (sampleOf_est_components ps h).2.2,
          fun h => (sampleOf_est_components ps h).2.1,
          fun h => (sampleOf_est_components ps h).1,
          fun hn h => sampleOf_active_running ps hn h⟩

/-- C3 witness: the amended invariant applied to a snapshot with the two
ordinary Psiphon processes, one holding an ESTABLISHED connection. -/
theorem C3_witness :
    (sampleOf [⟨"psiphon3.exe", [], false⟩,
               ⟨"psiphon-tunnel-core.exe", ["ESTABLISHED"], false⟩]).2.2.1 = true ∧
    (sampleOf [⟨"psiphon3.exe", [], false⟩,
               ⟨"psiphon-tunnel-core.exe", ["ESTABLISHED"], false⟩]).2.1 = true := by
  refine ⟨(C3_publish_invariant _).1 (by decide),
          (C3_publish_invariant _).2.2.2 (by decide) (by decide)⟩

/-- C6: over any sample sequence of the monitor, (1) a false→true
transition of `established` between consecutive samples emits exactly
one edge notification, placed before that sample's routine update;
(2) consecutive samples with `established = true` emit no edge
notification; (3) every per-sample batch is at most one edge followed by
exactly one routine update, so an edge is never emitted after its
sample's update. -/
theorem C6_edge_notifications :
    (∀ (last : Option Bool) (s1 s2 : List Process) (rest : List (List Process)),
      (sampleOf s1).2.2.2 = false → (sampleOf s2).2.2.2 = true →
      (monitorGo last (s1 :: s2 :: rest)).get? 1
        = some [MEv.edge true, MEv.update (sampleOf s2)]) ∧
    (∀ (last : Option Bool) (s1 s2 : List Process) (rest : List (List Process)),
      (sampleOf s1).2.2.2 = true → (sampleOf s2).2.2.2 = true →
      (monitorGo last (s1 :: s2 :: rest)).get? 1
        = some [MEv.update (sampleOf s2)]) ∧
    (∀ (last : Option Bool) (ss : List (List Process)) (bat : List MEv),
      bat ∈ monitorGo last ss →
      ∃ q, bat = [MEv.update q] ∨ bat = [MEv.edge q.2.2.2, MEv.update q]) := by
  refine ⟨?_, ?_, ?_⟩
  · intro last s1 s2 rest h1 h2
    simp [monitorGo, monitorStep, h1, h2]
  · intro last s1 s2 rest h1 h2
    simp [monitorGo, monitorStep, h1, h2]
  · intro last ss
    induction ss generalizing last with
    | nil => intro bat h; simp [monitorGo] at h
    | cons s rest ih =>
      intro bat h
      simp only [monitorGo, List.mem_cons] at h
      rcases h with h | h
      · subst h
        refine ⟨sampleOf s, ?_⟩
        by_cases hc : some (sampleOf s).2.2.2 ≠ last
        · right; simp [monitorStep, hc]
        · left; simp [monitorStep, hc]
      · exact ih _ _ h

/-- C6 witness: the first clause of the claim applied to the concrete
run whose first snapshot is empty and whose second holds both Psiphon
processes with an ESTABLISHED tunnel connection. -/
theorem C6_witness :
    (monitorGo none [[],
        [⟨"psiphon3.exe", [], false⟩,
         ⟨"psiphon-tunnel-core.exe", ["ESTABLISHED"], false⟩]]).get? 1
      = some [MEv.edge true, MEv.update (true, true, true, true)] := by
  have h := C6_edge_notifications.1 none []
      [⟨"psiphon3.exe", [], false⟩, ⟨"psiphon-tunnel-core.exe", ["ESTABLISHED"], false⟩]
      [] (by decide) (by decide)
  rw [h]
  decide

/-! ### NetworkManager (src/core/services/network_manager.py)

Each operation is a function of an oracle recording what the OS answers
to each successive query; the OS-facing commands it issues are collected
in an event trace. -/

/-- OS-facing events of `NetworkManager` operations. -/
inductive NEv where
  | cmdShowInterfaces
  | cmdShowNetworks
  | cmdShowProfiles
  | cmdTasklist
  | httpProbe
  | fileWrite (ssid : String)
  | cmdAddProfile (ssid : String)
  | fileRemove (ssid : String)
  | cmdConnect (ssid : String)
  | cmdDisconnect
  | procStartPsiphon
  | procKillPsiphon
  | msgError
deriving DecidableEq, Repr

/-- Events that mutate OS or filesystem state (as opposed to queries and
message boxes). -/
def isMutation : NEv → Bool
  | .fileWrite _ | .cmdAddProfile _ | .fileRemove _ | .cmdConnect _
  | .cmdDisconnect | .procStartPsiphon | .procKillPsiphon => true
  | _ => false

/-- The mutable fields of `NetworkManager` the core logic reads and
writes. An empty `current_ssid`/`current_password` models Python's
`None` or `""` (both falsy under `if not self.current_ssid`). -/
structure NMState where
  current_ssid : String
  current_password : String
  available_networks : List String
deriving DecidableEq, Repr

/-- `NetworkManager.get_wifi_status`, given the stdout of
`netsh wlan show interfaces` and whether that command fails
(`check=True` raising). The connectivity test is Python's substring
`self.current_ssid in result.stdout`. -/
def get_wifi_status (ssid ifaceOut : String) (cmdFail : Bool) :
    (Bool × String) × List NEv :=
  if ssid = "" then ((false, "Wi-Fi not selected"), [])
  else if cmdFail then ((false, "Error"), [NEv.cmdShowInterfaces])
  else if pyIn ssid ifaceOut then
    ((true, "Connected to " ++ ssid), [NEv.cmdShowInterfaces])
  else ((false, "Not Connected"), [NEv.cmdShowInterfaces])

/-- `NetworkManager.create_wifi_profile`, given whether the
`netsh wlan add profile` import command succeeds. The temporary XML file
is written before the import; `os.remove` runs only after a successful
import, because `check=True` jumps to the `except` branch first. -/
def create_wifi_profile (st : NMState) (addOk : Bool) : List NEv × Bool :=
  if st.current_ssid = "" ∨ st.current_password = "" then ([], false)
  else if addOk then
    ([NEv.fileWrite st.current_ssid, NEv.cmdAddProfile st.current_ssid,
      NEv.fileRemove st.current_ssid], true)
  else
    ([NEv.fileWrite st.current_ssid, NEv.cmdAddProfile st.current_ssid,
      NEv.msgError], false)

/-- The auto-selection loop of `NetworkManager.connect_wifi`: the first
saved profile (store iteration order) whose ssid is a member of the
scanned network list. -/
def auto_select (profiles : List (String × String)) (avail : List String) :
    Option (String × String) :=
  profiles.find? fun sp => avail.contains sp.1

/-- Oracle for one `connect_wifi` invocation: the interface listing at
the entry status check and at the post-connect re-check, the parsed scan
result, the saved profiles of the store, and the stdout of
`netsh wlan show profiles`. -/
structure ConnectEnv where
  ifaceOut1 : String
  ifaceFail1 : Bool
  scanOut : List String
  scanFail : Bool
  knownProfiles : List (String × String)
  profilesOut : String
  profilesFail : Bool
  addProfileOk : Bool
  ifaceOut2 : String
  ifaceFail2 : Bool
deriving DecidableEq, Repr

/-- `NetworkManager.connect_wifi`. Returns the updated credential state,
the event trace, and the boolean result. Mirrors the source: early
success when already connected; auto-selection from saved profiles when
credentials are missing; profile creation when the OS has no profile for
the target; then the connect command, settle, and re-query. -/
def connect_wifi (st : NMState) (env : ConnectEnv) : NMState × List NEv × Bool :=
  let s1 := get_wifi_status st.current_ssid env.ifaceOut1 env.ifaceFail1
  if s1.1.1 then (st, s1.2, true)
  else
    let auto :=
      if st.current_ssid = "" ∨ st.current_password = "" then
        let avail := if env.scanFail then [] else env.scanOut
        match auto_select env.knownProfiles avail with
        | some sp =>
          ((⟨sp.1, sp.2, avail⟩ : NMState), [NEv.cmdShowNetworks])
        | none => ({ st with available_networks := avail }, [NEv.cmdShowNetworks])
      else (st, [])
    let st1 := auto.1
    if st1.current_ssid = "" then (st1, s1.2 ++ auto.2, false)
    else if env.profilesFail then
      (st1, s1.2 ++ auto.2 ++ [NEv.cmdShowProfiles], false)
    else
      let evProf :=
        if pyIn st1.current_ssid env.profilesOut then []
        else (create_wifi_profile st1 env.addProfileOk).1
      let s2 := get_wifi_status st1.current_ssid env.ifaceOut2 env.ifaceFail2
      (st1,
       s1.2 ++ auto.2 ++ [NEv.cmdShowProfiles] ++ evProf ++
         [NEv.cmdConnect st1.current_ssid] ++ s2.2,
       s2.1.1)

/-- Oracle for one `disconnect_wifi` invocation. -/
structure DisconnectEnv where
  ifaceOut1 : String
  ifaceFail1 : Bool
  ifaceOut2 : String
  ifaceFail2 : Bool
deriving DecidableEq, Repr

/-- `NetworkManager.disconnect_wifi`: no-op success when already
disconnected; otherwise issue the disconnect command, settle, re-query,
and succeed iff the post-state is disconnected. -/
def disconnect_wifi (st : NMState) (env : DisconnectEnv) : List NEv × Bool :=
  let s1 := get_wifi_status st.current_ssid env.ifaceOut1 env.ifaceFail1
  if s1.1.1 then
    let s2 := get_wifi_status st.current_ssid env.ifaceOut2 env.ifaceFail2
    (s1.2 ++ [NEv.cmdDisconnect] ++ s2.2, !s2.1.1)
  else (s1.2, true)

/-- `NetworkManager.is_psiphon_running`: substring test
`"psiphon3.exe" in tasklist_stdout.lower()`; fails closed on command
failure. -/
def is_psiphon_running (taskOut : String) (cmdFail : Bool) : Bool × List NEv :=
  if cmdFail then (false, [NEv.cmdTasklist])
  else (pyIn "psiphon3.exe" (pyLower taskOut), [NEv.cmdTasklist])

/-- Oracle for one `start_psiphon`/`stop_psiphon` invocation. `popenOk`
is false when launching the executable raises `FileNotFoundError`. -/
structure PsiphonEnv where
  taskOut1 : String
  taskFail1 : Bool
  popenOk : Bool
  taskOut2 : String
  taskFail2 : Bool
deriving DecidableEq, Repr

/-- `NetworkManager.start_psiphon`: no-op success when already running;
otherwise launch, settle, re-query. -/
def start_psiphon (env : PsiphonEnv) : List NEv × Bool :=
  let r1 := is_psiphon_running env.taskOut1 env.taskFail1
  if r1.1 then (r1.2, true)
  else if env.popenOk then
    let r2 := is_psiphon_running env.taskOut2 env.taskFail2
    (r1.2 ++ [NEv.procStartPsiphon] ++ r2.2, r2.1)
  else (r1.2 ++ [NEv.msgError], false)

/-- `NetworkManager.stop_psiphon`: no-op success when already stopped;
otherwise kill, settle, re-query. -/
def stop_psiphon (env : PsiphonEnv) : List NEv × Bool :=
  let r1 := is_psiphon_running env.taskOut1 env.taskFail1
  if r1.1 then
    let r2 := is_psiphon_running env.taskOut2 env.taskFail2
    (r1.2 ++ [NEv.procKillPsiphon] ++ r2.2, !r2.1)
  else (r1.2, true)

/-- `NetworkManager.get_internet_status`: one HTTP probe; `none` models
a raised `RequestException`; success is exactly status code 204. -/
def get_internet_status (code : Option Nat) : Bool × List NEv :=
  (match code with
   | some c => c == 204
   | none => false,
   [NEv.httpProbe])

/-- Helper: a status query never issues a mutating command. -/
theorem get_wifi_status_no_mutation (ssid out : String) (fail : Bool) :
    (get_wifi_status ssid out fail).2.filter isMutation = [] := by
  simp only [get_wifi_status]
  split <;> [skip; split] <;> first
    | rfl
    | (split <;> rfl)

/-- Helper: the tasklist query never issues a mutating command. -/
theorem is_psiphon_running_no_mutation (out : String) (fail : Bool) :
    (is_psiphon_running out fail).2.filter isMutation = [] := by
  simp only [is_psiphon_running]
  split <;> rfl

/-- C10: `get_wifi_status` decides connectivity by substring membership
of the target ssid in the raw `netsh wlan show interfaces` output: any
occurrence of the target anywhere in that output — in particular as a
proper substring of a different connected network's name — yields
`(true, "Connected to <ssid>")`. -/
theorem C10_substring_status (ssid out : String)
    (hne : ssid ≠ "") (hin : pyIn ssid out = true) :
    (get_wifi_status ssid out false).1 = (true, "Connected to " ++ ssid) := by
  simp [get_wifi_status, hne, hin]

/-- C10 witness: the machine is associated to "HomeNet", the target is
"Net"; "Net" occurs in the listing as a proper suffix of "HomeNet", and
the probe still reports it connected. -/
theorem C10_witness :
    (get_wifi_status "Net" "    SSID                   : HomeNet" false).1
      = (true, "Connected to " ++ "Net") :=
  C10_substring_status "Net" "    SSID                   : HomeNet"
    (by decide) (by decide)

/-- Helper: the auto-selection loop picks the first saved profile whose
ssid is in the scanned list. -/
theorem auto_select_first (pre post : List (String × String)) (s p : String)
    (avail : List String)
    (hpre : ∀ q ∈ pre, avail.contains q.1 = false)
    (hs : avail.contains s = true) :
    auto_select (pre ++ (s, p) :: post) avail = some (s, p) := by
  induction pre with
  | nil =>
    simp only [List.nil_append, auto_select]
    exact List.find?_cons_of_pos _ hs
  | cons q qs ih =>
    simp only [List.cons_append, auto_select] at ih ⊢
    rw [List.find?_cons_of_neg _
      (by rw [hpre q (List.mem_cons_self q qs)]; simp)]
    exact ih fun r hr => hpre r (by simp [hr])

/-- C4: when `connect_wifi` runs with no explicit target credentials and
the saved-profile list, in store iteration order, is `pre ++ (s, p) ::
post` where no ssid of `pre` is in the scanned network list and `s` is,
then the chosen connection target is `s`: the credential state is set to
`s` and the issued connect command names `s`. -/
theorem C4_first_match (pre post : List (String × String)) (s p : String)
    (env : ConnectEnv)
    (hscan : env.scanFail = false)
    (hprof : env.knownProfiles = pre ++ (s, p) :: post)
    (hpre : ∀ q ∈ pre, env.scanOut.contains q.1 = false)
    (hs : env.scanOut.contains s = true)
    (hne : s ≠ "")
    (hpf : env.profilesFail = false) :
    (connect_wifi ⟨"", "", []⟩ env).1.current_ssid = s ∧
    NEv.cmdConnect s ∈ (connect_wifi ⟨"", "", []⟩ env).2.1 := by
  have hauto := auto_select_first pre post s p env.scanOut hpre hs
  rw [← hprof] at hauto
  constructor <;>
  · simp only [connect_wifi, get_wifi_status]
    simp [hscan, hauto, hne, hpf]

/-- C4 witness: scanned networks `["A", "B"]`, saved profiles
`[("B","pw1"), ("A","pw2")]`, no explicit target — the selected ssid is
"B", the first profile-store entry present in the scan. -/
theorem C4_witness :
    (connect_wifi ⟨"", "", []⟩
        ⟨"", false, ["A", "B"], false, [("B", "pw1"), ("A", "pw2")], "",
         false, true, "SSID : B", false⟩).1.current_ssid = "B" ∧
    NEv.cmdConnect "B" ∈ (connect_wifi ⟨"", "", []⟩
        ⟨"", false, ["A", "B"], false, [("B", "pw1"), ("A", "pw2")], "",
         false, true, "SSID : B", false⟩).2.1 :=
  C4_first_match [] [("A", "pw2")] "B" "pw1" _
    rfl rfl (by simp) (by decide) (by decide) rfl

/-- C5: each of `connect_wifi`, `disconnect_wifi`, `start_psiphon` and
`stop_psiphon` is idempotent: whenever the entry query already reports
the operation's target state, the operation returns success and its
trace contains no OS mutation command. -/
theorem C5_idempotent :
    (∀ (st : NMState) (env : ConnectEnv),
      (get_wifi_status st.current_ssid env.ifaceOut1 env.ifaceFail1).1.1 = true →
      (connect_wifi st env).2.2 = true ∧
      (connect_wifi st env).2.1.filter isMutation = [] ∧
      (connect_wifi st env).1 = st) ∧
    (∀ (st : NMState) (env : DisconnectEnv),
      (get_wifi_status st.current_ssid env.ifaceOut1 env.ifaceFail1).1.1 = false →
      (disconnect_wifi st env).2 = true ∧
      (disconnect_wifi st env).1.filter isMutation = []) ∧
    (∀ env : PsiphonEnv,
      (is_psiphon_running env.taskOut1 env.taskFail1).1 = true →
      (start_psiphon env).2 = true ∧
      (start_psiphon env).1.filter isMutation = []) ∧
    (∀ env : PsiphonEnv,
      (is_psiphon_running env.taskOut1 env.taskFail1).1 = false →
      (stop_psiphon env).2 = true ∧
      (stop_psiphon env).1.filter isMutation = []) := by
  refine ⟨?_, ?_, ?_, ?_⟩
  · intro st env h
    simp [connect_wifi, h, get_wifi_status_no_mutation]
  · intro st env h
    simp [disconnect_wifi, h, get_wifi_status_no_mutation]
  · intro env h
    simp [start_psiphon, h, is_psiphon_running_no_mutation]
  · intro env h
    simp [stop_psiphon, h, is_psiphon_running_no_mutation]

/-- C5 witness: the four idempotency clauses at concrete states — already
connected to "Home", already disconnected, Psiphon already running,
Psiphon already stopped. -/
theorem C5_witness :
    ((connect_wifi ⟨"Home", "pw", []⟩
        ⟨"SSID : Home", false, [], false, [], "", false, true, "", false⟩).2.2 = true ∧
      (connect_wifi ⟨"Home", "pw", []⟩
        ⟨"SSID : Home", false, [], false, [], "", false, true, "", false⟩).2.1.filter
          isMutation = []) ∧
    (disconnect_wifi ⟨"Home", "pw", []⟩ ⟨"no match here", false, "", false⟩).2 = true ∧
    (start_psiphon ⟨"svchost.exe Psiphon3.exe", false, true, "", false⟩).2 = true ∧
    (stop_psiphon ⟨"svchost.exe", false, true, "", false⟩).2 = true := by
  refine ⟨⟨?_, ?_⟩, ?_, ?_, ?_⟩
  · exact (C5_idempotent.1 ⟨"Home", "pw", []⟩ _ (by decide)).1
  · exact (C5_idempotent.1 ⟨"Home", "pw", []⟩ _ (by decide)).2.1
  · exact (C5_idempotent.2.1 ⟨"Home", "pw", []⟩ _ (by decide)).1
  · exact (C5_idempotent.2.2.1 _ (by decide)).1
  · exact (C5_idempotent.2.2.2 _ (by decide)).1

/-- C9 counterexample: the claim "the temporary profile file is deleted
on every outcome of the import" is false on the code. With credentials
set and a failing `netsh wlan add profile` command, `check=True` raises
before `os.remove`, so the trace writes the XML file but never removes
it. -/
theorem C9_counterexample :
    (create_wifi_profile ⟨"Home", "pw", []⟩ false).1.contains
        (NEv.fileWrite "Home") = true ∧
    (create_wifi_profile ⟨"Home", "pw", []⟩ false).1.contains
        (NEv.fileRemove "Home") = false ∧
    (create_wifi_profile ⟨"Home", "pw", []⟩ false).2 = false := by
  refine ⟨by decide, by decide, by decide⟩

/-- C9 (amended): in the profile-creation path, the temporary XML file
holding the clear-text key is deleted after the import command exactly
when the import succeeds; on a failed import the exception path skips
the deletion and the file stays on disk. -/
theorem C9_temp_file (st : NMState) (ok : Bool)
    (hs : st.current_ssid ≠ "") (hp : st.current_password ≠ "") :
    ((NEv.fileRemove st.current_ssid ∈ (create_wifi_profile st ok).1) ↔ ok = true) ∧
    (ok = true →
      (create_wifi_profile st ok).1 =
        [NEv.fileWrite st.current_ssid, NEv.cmdAddProfile st.current_ssid,
         NEv.fileRemove st.current_ssid]) := by
  cases ok <;> simp [create_wifi_profile, hs, hp]

/-- C9 witness: with credentials set and a successful import, the trace
is exactly write, import, delete. -/
theorem C9_witness :
    (create_wifi_profile ⟨"Home", "pw", []⟩ true).1 =
      [NEv.fileWrite "Home", NEv.cmdAddProfile "Home", NEv.fileRemove "Home"] :=
  (C9_temp_file ⟨"Home", "pw", []⟩ true (by decide) (by decide)).2 rfl

/-! ### MainController (src/core/controller/main_controller.py)

`run_once_config` is embedded over an oracle of the boolean answers its
successive probe calls return; the probe calls and corrective actions it
performs are collected in a trace of call-site-labelled events. -/

/-- Events of one `run_once_config` run, one constructor per call site. -/
inductive CEv where
  | checkWifi          -- initial get_wifi_status
  | initialVpnQuery    -- is_psiphon_running sampled at the top of the run
  | wifiConnectAttempt -- connect_wifi inside the Wi-Fi step
  | recheckWifi        -- get_wifi_status re-query after the attempt
  | fatalWifiError     -- show_error for the fatal Wi-Fi failure
  | checkNet           -- first get_internet_status
  | netResetDisconnect -- disconnect_wifi inside the internet step
  | netResetConnect    -- connect_wifi inside the internet step
  | recheckNet         -- second get_internet_status
  | fatalNetError      -- show_error for the fatal internet failure
  | vpnStart           -- start_psiphon inside the VPN step
  | vpnRecheck         -- is_psiphon_running after the start wait
  | vpnWarn            -- show_warning for the non-fatal VPN failure
  | vpnCheckForStop    -- is_psiphon_running on the use_vpn=False branch
  | vpnStop            -- stop_psiphon
  | updateLabels       -- final update_status_labels
deriving DecidableEq, Repr

/-- How one `run_once_config` run ends. -/
inductive RunResult where
  | completed
  | fatalWifi
  | fatalInternet
deriving DecidableEq, Repr

/-- Oracle of probe answers for one `run_once_config` run, in call
order: the two Wi-Fi status queries, the Psiphon query at the top of the
run, the checkbox, the two internet checks, the Psiphon re-query after a
start, and the Psiphon query of the stop branch. -/
structure RunEnv where
  wifi1 : Bool
  wifi2 : Bool
  vpn0 : Bool
  useVpn : Bool
  net1 : Bool
  net2 : Bool
  vpnAfterStart : Bool
  vpnForStop : Bool
deriving DecidableEq, Repr

/-- Events of the VPN step of `run_once_config` (its third block): when
`use_vpn` is checked and Psiphon was not running at the top of the run,
start it, wait, re-query, and warn if it still is not running;
when `use_vpn` is unchecked, stop Psiphon if it is running. -/
def vpnStepEvents (e : RunEnv) : List CEv :=
  if e.useVpn then
    if e.vpn0 then []
    else [CEv.vpnStart, CEv.vpnRecheck] ++
      (if e.vpnAfterStart then [] else [CEv.vpnWarn])
  else
    [CEv.vpnCheckForStop] ++ (if e.vpnForStop then [CEv.vpnStop] else [])

/-- The internet step of `run_once_config` and everything after it:
query reachability; if down, run one disconnect+reconnect cycle and
re-query; if still down, report the fatal cause and return early;
otherwise run the VPN step and `update_status_labels`. -/
def netStepOnward (t : List CEv) (e : RunEnv) : List CEv × RunResult :=
  let t1 := t ++ [CEv.checkNet]
  if e.net1 then (t1 ++ vpnStepEvents e ++ [CEv.updateLabels], RunResult.completed)
  else
    let t2 := t1 ++ [CEv.netResetDisconnect, CEv.netResetConnect, CEv.recheckNet]
    if e.net2 then (t2 ++ vpnStepEvents e ++ [CEv.updateLabels], RunResult.completed)
    else (t2 ++ [CEv.fatalNetError], RunResult.fatalInternet)

/-- `MainController.run_once_config`: query Wi-Fi status and sample the
Psiphon process state; if Wi-Fi is down, attempt a connect, wait, and
re-query; if it is still down, report the fatal cause and return early;
otherwise continue with the internet step. The early `return` statements
of the source are the two non-`completed` results. -/
def run_once_config (e : RunEnv) : List CEv × RunResult :=
  let t0 := [CEv.checkWifi, CEv.initialVpnQuery]
  if e.wifi1 then netStepOnward t0 e
  else
    let t1 := t0 ++ [CEv.wifiConnectAttempt, CEv.recheckWifi]
    if e.wifi2 then netStepOnward t1 e
    else (t1 ++ [CEv.fatalWifiError], RunResult.fatalWifi)

/-- Events belonging to the internet-check step. -/
def isNetStepEv : CEv → Bool
  | .checkNet | .netResetDisconnect | .netResetConnect | .recheckNet
  | .fatalNetError => true
  | _ => false

/-- Events belonging to the VPN step. -/
def isVpnStepEv : CEv → Bool
  | .vpnStart | .vpnRecheck | .vpnWarn | .vpnCheckForStop | .vpnStop => true
  | _ => false

/-- The two fatal-cause reports. -/
def isFatalEv : CEv → Bool
  | .fatalWifiError | .fatalNetError => true
  | _ => false

/-- C1: `run_once_config` short-circuits on fatal failures. If the
Wi-Fi step ends fatally (still disconnected after the connect attempt
and re-query) no internet-step and no VPN-step call site runs; if the
internet step ends fatally (still unreachable after the
disconnect+reconnect cycle) no VPN-step call site runs; and every run's
trace reports at most one fatal cause. -/
theorem C1_short_circuit (e : RunEnv) :
    (e.wifi1 = false ∧ e.wifi2 = false →
      (run_once_config e).2 = RunResult.fatalWifi ∧
      (run_once_config e).1.filter isNetStepEv = [] ∧
      (run_once_config e).1.filter isVpnStepEv = []) ∧
    ((e.wifi1 = true ∨ e.wifi2 = true) → e.net1 = false → e.net2 = false →
      (run_once_config e).2 = RunResult.fatalInternet ∧
      (run_once_config e).1.filter isVpnStepEv = []) ∧
    (run_once_config e).1.countP (fun ev => isFatalEv ev) ≤ 1 := by
  obtain ⟨w1, w2, v0, uv, n1, n2, va, vs⟩ := e
  cases w1 <;> cases w2 <;> cases v0 <;> cases uv <;> cases n1 <;> cases n2 <;>
    cases va <;> cases vs <;> decide

/-- C1 witness: a run whose Wi-Fi step fails twice ends as the fatal
Wi-Fi result with no internet-step and no VPN-step events. -/
theorem C1_witness :
    (run_once_config ⟨false, false, false, true, true, true, true, true⟩).2
        = RunResult.fatalWifi ∧
    (run_once_config
        ⟨false, false, false, true, true, true, true, true⟩).1.filter isNetStepEv
        = [] ∧
    (run_once_config
        ⟨false, false, false, true, true, true, true, true⟩).1.filter isVpnStepEv
        = [] :=
  (C1_short_circuit ⟨false, false, false, true, true, true, true, true⟩).1
    ⟨rfl, rfl⟩

/-- C2 counterexample: the claim "`update_status_labels` is invoked
before the run returns on every path" is false on the code. On the fatal
Wi-Fi path the early `return` at the end of the Wi-Fi step skips the
`update_status_labels()` call, which only the fall-through successful
path reaches. -/
theorem C2_counterexample :
    (run_once_config
        ⟨false, false, false, false, false, false, false, false⟩).1.contains
        CEv.updateLabels = false ∧
    (run_once_config ⟨false, false, false, false, false, false, false, false⟩).2
        = RunResult.fatalWifi := by
  refine ⟨by decide, by decide⟩

/-- C2 (amended): `run_once_config` refreshes and publishes the
composite state (`update_status_labels`) exactly on the runs that
complete without a fatal failure; the fatal Wi-Fi and fatal internet
early returns skip it. -/
theorem C2_publish_on_success (e : RunEnv) :
    CEv.updateLabels ∈ (run_once_config e).1 ↔
      (run_once_config e).2 = RunResult.completed := by
  obtain ⟨w1, w2, v0, uv, n1, n2, va, vs⟩ := e
  cases w1 <;> cases w2 <;> cases v0 <;> cases uv <;> cases n1 <;> cases n2 <;>
    cases va <;> cases vs <;> decide

/-- The auto-configuration controls of `MainController`: the interval
spin box, the two buttons, and the repeating `QTimer`. -/
structure AutoUi where
  spinValue : Int
  spinReadOnly : Bool
  startEnabled : Bool
  stopEnabled : Bool
  timerActive : Bool
  timerIntervalMs : Int
deriving DecidableEq, Repr

/-- Events of `start_auto_config`/`stop_auto_config`. -/
inductive AEv where
  | errorBox
  | infoBox
  | timerStart (ms : Int)
  | timerStop
deriving DecidableEq, Repr

/-- `MainController.start_auto_config`: reject a non-positive spin-box
interval with an error box and no state change; otherwise lock the spin
box, flip the two buttons, and start the repeating timer at
`interval * 1000` milliseconds (`QTimer.start` on a running timer
restarts it). -/
def start_auto_config (s : AutoUi) : AutoUi × List AEv :=
  if s.spinValue ≤ 0 then (s, [AEv.errorBox])
  else
    ({ s with spinReadOnly := true, startEnabled := false, stopEnabled := true,
              timerActive := true, timerIntervalMs := s.spinValue * 1000 },
     [AEv.timerStart (s.spinValue * 1000), AEv.infoBox])

/-- `MainController.stop_auto_config`: stop the timer (a no-op when it
is not running) and restore the controls; no validation, no error. -/
def stop_auto_config (s : AutoUi) : AutoUi × List AEv :=
  ({ s with timerActive := false, spinReadOnly := false, startEnabled := true,
            stopEnabled := false },
   [AEv.timerStop, AEv.infoBox])

/-- C7: for every interval value at most zero, `start_auto_config`
rejects the request with an error box and performs no scheduling side
effect: the returned state is unchanged (no timer start, no UI/mode
change) and the only event is the error report. -/
theorem C7_invalid_interval (s : AutoUi) (h : s.spinValue ≤ 0) :
    start_auto_config s = (s, [AEv.errorBox]) := by
  simp [start_auto_config, h]

/-- C7 witness: the rejection at interval 0 from the idle state. -/
theorem C7_witness :
    start_auto_config ⟨0, false, true, false, false, 0⟩
      = (⟨0, false, true, false, false, 0⟩, [AEv.errorBox]) :=
  C7_invalid_interval ⟨0, false, true, false, false, 0⟩ (by decide)

/-- C8 counterexample: the claim "startAuto while already running is
rejected as a configuration error" is false on the code.
`start_auto_config` has no already-running check: invoked on a state
whose timer is active (interval 20), it emits no error and issues a
fresh `QTimer.start`, restarting the timer. -/
theorem C8_counterexample :
    (start_auto_config ⟨20, true, false, true, true, 20000⟩).2
        = [AEv.timerStart 20000, AEv.infoBox] ∧
    (start_auto_config ⟨20, true, false, true, true, 20000⟩).1.timerActive
        = true := by
  refine ⟨by decide, by decide⟩

/-- C8 (amended): `start_auto_config` invoked while the timer is already
running is not rejected — with a positive interval it restarts the timer
and reports success (the UI only prevents this by disabling the start
button); `stop_auto_config` invoked while the timer is not running is a
no-op that succeeds: the timer stays stopped and no error is raised. -/
theorem C8_restart_and_stop_noop :
    (∀ s : AutoUi, 0 < s.spinValue → s.timerActive = true →
      (start_auto_config s).2 = [AEv.timerStart (s.spinValue * 1000), AEv.infoBox] ∧
      (start_auto_config s).1.timerActive = true) ∧
    (∀ s : AutoUi, s.timerActive = false →
      (stop_auto_config s).1.timerActive = false ∧
      AEv.errorBox ∉ (stop_auto_config s).2) := by
  constructor
  · intro s h _
    rw [start_auto_config, if_neg (not_le.mpr h)]
    exact ⟨rfl, rfl⟩
  · intro s _
    refine ⟨rfl, by simp [stop_auto_config]⟩

/-- C8 witness: a restart while running at interval 20, and a stop while
not running. -/
theorem C8_witness :
    (start_auto_config ⟨20, true, false, true, true, 20000⟩).1.timerActive = true ∧
    (stop_auto_config ⟨20, false, true, false, false, 20000⟩).1.timerActive
        = false :=
  ⟨(C8_restart_and_stop_noop.1 ⟨20, true, false, true, true, 20000⟩
      (by decide) rfl).2,
   (C8_restart_and_stop_noop.2 ⟨20, false, true, false, false, 20000⟩ rfl).1⟩

end MPA
